import Mathlib

/-!
Verification of the financial-statement normalization pipeline of this
repository against its natural-language specification.  The Python source
is shallowly embedded: pandas data frames become lists of string rows,
numeric cells become `Option ℚ` (with `none` playing the role of `NaN` /
an absent value), and Python's stable `sorted(…, key=…)` becomes a stable
insertion sort over a boolean strict-less-than comparator.
-/

deriving instance DecidableEq for Except

namespace Spec2Proof

attribute [local semireducible] Rat.mul Rat.add Rat.sub Rat.inv

/-! ## Stable sorting, modelling Python `sorted`

Python's `sorted` is a stable sort that only calls `__lt__` on the keys.
`insertS lt x l` inserts `x` into the already-sorted list `l`, placing it
before the first element strictly greater than `x`; processing the input
left to right with `pySortAux` therefore keeps equal elements in their
original order, exactly like Python's sort. -/

def insertS (lt : α → α → Bool) (x : α) : List α → List α
  | [] => [x]
  | y :: ys => if lt x y then x :: y :: ys else y :: insertS lt x ys

def pySortAux (lt : α → α → Bool) : List α → List α → List α
  | acc, [] => acc
  | acc, x :: xs => pySortAux lt (insertS lt x acc) xs

def pySorted (lt : α → α → Bool) (l : List α) : List α :=
  pySortAux lt [] l

theorem insertS_perm (lt : α → α → Bool) (x : α) :
    ∀ l : List α, List.Perm (insertS lt x l) (x :: l) := by
  intro l
  induction l with
  | nil => simp [insertS]
  | cons y ys ih =>
    simp only [insertS]
    by_cases h : lt x y
    · simp [h]
    · simp only [h, Bool.false_eq_true, if_false]
      exact (List.Perm.cons y ih).trans (List.Perm.swap x y ys)

theorem pySortAux_perm (lt : α → α → Bool) :
    ∀ (l acc : List α), List.Perm (pySortAux lt acc l) (acc ++ l) := by
  intro l
  induction l with
  | nil => intro acc; simp [pySortAux]
  | cons x xs ih =>
    intro acc
    simp only [pySortAux]
    have h1 := ih (insertS lt x acc)
    have h2 := (insertS_perm lt x acc).append_right xs
    exact (h1.trans h2).trans List.perm_middle.symm

theorem pySorted_perm (lt : α → α → Bool) (l : List α) :
    List.Perm (pySorted lt l) l := pySortAux_perm lt l []

theorem mem_insertS {lt : α → α → Bool} {x a : α} {l : List α}
    (h : a ∈ insertS lt x l) : a = x ∨ a ∈ l := by
  have := (insertS_perm lt x l).mem_iff.mp h
  simpa using this

/-- SortedB lt l states that the list is weakly sorted with respect to the
strict boolean comparator: no element is strictly below an earlier one. -/
def SortedB (lt : α → α → Bool) (l : List α) : Prop :=
  l.Pairwise (fun a b => lt b a = false)

theorem insertS_sortedB {lt : α → α → Bool}
    (hasym : ∀ a b, lt a b = true → lt b a = false)
    (htrans : ∀ a b c, lt a b = true → lt b c = true → lt a c = true)
    (x : α) : ∀ {l : List α}, SortedB lt l → SortedB lt (insertS lt x l) := by
  intro l
  induction l with
  | nil => intro _; simp [insertS, SortedB]
  | cons y ys ih =>
    intro hs
    simp only [SortedB, List.pairwise_cons] at hs
    obtain ⟨hy, hys⟩ := hs
    simp only [insertS]
    by_cases h : lt x y
    · simp only [h, if_true, SortedB, List.pairwise_cons]
      refine ⟨?_, hy, hys⟩
      intro b hb
      rcases List.mem_cons.mp hb with rfl | hb
      · exact hasym _ _ h
      · by_cases hbx : lt b x
        · have hby : lt b y = true := htrans b x y hbx h
          rw [hy b hb] at hby
          exact absurd hby (by simp)
        · simpa using hbx
    · simp only [h, Bool.false_eq_true, if_false, SortedB, List.pairwise_cons]
      refine ⟨?_, ih hys⟩
      intro b hb
      rcases mem_insertS hb with rfl | hb
      · simpa using h
      · exact hy b hb

theorem pySortAux_sortedB {lt : α → α → Bool}
    (hasym : ∀ a b, lt a b = true → lt b a = false)
    (htrans : ∀ a b c, lt a b = true → lt b c = true → lt a c = true) :
    ∀ (l acc : List α), SortedB lt acc → SortedB lt (pySortAux lt acc l) := by
  intro l
  induction l with
  | nil => intro acc h; simpa [pySortAux] using h
  | cons x xs ih =>
    intro acc h
    simp only [pySortAux]
    exact ih _ (insertS_sortedB hasym htrans x h)

theorem pySorted_sortedB {lt : α → α → Bool}
    (hasym : ∀ a b, lt a b = true → lt b a = false)
    (htrans : ∀ a b c, lt a b = true → lt b c = true → lt a c = true)
    (l : List α) : SortedB lt (pySorted lt l) :=
  pySortAux_sortedB hasym htrans l [] (by simp [SortedB])

theorem insertS_append_of_all {lt : α → α → Bool} {x : α} :
    ∀ {l : List α}, (∀ a ∈ l, lt x a = false) → insertS lt x l = l ++ [x] := by
  intro l
  induction l with
  | nil => intro _; simp [insertS]
  | cons y ys ih =>
    intro h
    have hy : lt x y = false := h y (by simp)
    simp only [insertS, hy, Bool.false_eq_true, if_false, List.cons_append,
      List.cons.injEq, true_and]
    exact ih (fun a ha => h a (by simp [ha]))

theorem pySortAux_fixpoint {lt : α → α → Bool} :
    ∀ (l acc : List α), SortedB lt (acc ++ l) → pySortAux lt acc l = acc ++ l := by
  intro l
  induction l with
  | nil => intro acc _; simp [pySortAux]
  | cons x xs ih =>
    intro acc h
    have hx : ∀ a ∈ acc, lt x a = false := by
      intro a ha
      simp only [SortedB] at h
      exact (List.pairwise_append.mp h).2.2 a ha x (by simp)
    simp only [pySortAux, insertS_append_of_all hx]
    have h2 : SortedB lt ((acc ++ [x]) ++ xs) := by
      simpa [List.append_assoc] using h
    rw [ih (acc ++ [x]) h2]
    simp

theorem pySorted_fixpoint {lt : α → α → Bool} {l : List α}
    (h : SortedB lt l) : pySorted lt l = l :=
  pySortAux_fixpoint l [] (by simpa using h)

theorem insertS_congr {lt₁ lt₂ : α → α → Bool} {x : α} :
    ∀ {l : List α}, (∀ a ∈ l, lt₁ x a = lt₂ x a) →
      insertS lt₁ x l = insertS lt₂ x l := by
  intro l
  induction l with
  | nil => intro _; rfl
  | cons y ys ih =>
    intro h
    have hy : lt₁ x y = lt₂ x y := h y (by simp)
    simp only [insertS, hy]
    by_cases h2 : lt₂ x y
    · simp [h2]
    · simp only [h2, Bool.false_eq_true, if_false, List.cons.injEq, true_and]
      exact ih (fun a ha => h a (by simp [ha]))

theorem pySortAux_congr {lt₁ lt₂ : α → α → Bool} :
    ∀ (l acc : List α),
      (∀ a, (a ∈ acc ∨ a ∈ l) → ∀ b, (b ∈ acc ∨ b ∈ l) → lt₁ a b = lt₂ a b) →
      pySortAux lt₁ acc l = pySortAux lt₂ acc l := by
  intro l
  induction l with
  | nil => intro acc _; rfl
  | cons x xs ih =>
    intro acc h
    have hins : insertS lt₁ x acc = insertS lt₂ x acc :=
      insertS_congr (fun a ha => h x (Or.inr (by simp)) a (Or.inl ha))
    simp only [pySortAux, hins]
    refine ih _ ?_
    intro a ha b hb
    have hmem : ∀ c, c ∈ insertS lt₂ x acc ∨ c ∈ xs → c ∈ acc ∨ c ∈ x :: xs := by
      intro c hc
      rcases hc with hc | hc
      · rcases mem_insertS hc with rfl | hc
        · exact Or.inr (by simp)
        · exact Or.inl hc
      · exact Or.inr (by simp [hc])
    exact h a (hmem a ha) b (hmem b hb)

theorem pySorted_congr {lt₁ lt₂ : α → α → Bool} {l : List α}
    (h : ∀ a ∈ l, ∀ b ∈ l, lt₁ a b = lt₂ a b) :
    pySorted lt₁ l = pySorted lt₂ l := by
  refine pySortAux_congr l [] ?_
  intro a ha b hb
  simp only [List.not_mem_nil, false_or] at ha hb
  exact h a ha b hb

/-! ## Association-list lookup

Pandas series and data-frame rows are modelled as association lists; the
first binding of a key wins, matching `Series.get` / label lookup. -/

def alookup [DecidableEq κ] : List (κ × β) → κ → Option β
  | [], _ => none
  | (k, v) :: rest, key => if k = key then some v else alookup rest key

theorem alookup_map_self [DecidableEq κ] (f : κ → β) :
    ∀ (ys : List κ) (y : κ), y ∈ ys →
      alookup (ys.map fun a => (a, f a)) y = some (f y) := by
  intro ys
  induction ys with
  | nil => intro y h; simp at h
  | cons k rest ih =>
    intro y h
    simp only [List.map_cons, alookup]
    by_cases hk : k = y
    · subst hk; simp
    · simp only [hk, if_false]
      exact ih y (by rcases List.mem_cons.mp h with h | h; exact absurd h.symm hk; exact h)

theorem alookup_map_self_none [DecidableEq κ] (f : κ → β) :
    ∀ (ys : List κ) (y : κ), y ∉ ys →
      alookup (ys.map fun a => (a, f a)) y = none := by
  intro ys
  induction ys with
  | nil => intro y _; rfl
  | cons k rest ih =>
    intro y h
    simp only [List.mem_cons, not_or] at h
    simp only [List.map_cons, alookup, Ne.symm h.1, if_false]
    exact ih y h.2

theorem alookup_zip_get [DecidableEq κ] :
    ∀ (ys : List κ) (w : List β), ys.Nodup → w.length = ys.length →
      ∀ (i : Nat) (h : i < ys.length),
        alookup (ys.zip w) (ys.get ⟨i, h⟩) = w.get? i := by
  intro ys
  induction ys with
  | nil => intro w _ _ i h; simp at h
  | cons k rest ih =>
    intro w hnd hlen i h
    match w with
    | [] => simp at hlen
    | v :: vs =>
      simp only [List.length_cons, Nat.succ.injEq] at hlen
      match i with
      | 0 => simp [alookup]
      | j + 1 =>
        have hj : j < rest.length := by simpa using Nat.lt_of_succ_lt_succ h
        have hk : k ≠ rest.get ⟨j, hj⟩ := by
          intro hc
          exact (List.nodup_cons.mp hnd).1 (hc ▸ List.get_mem rest j hj)
        simp only [List.zip_cons_cons, List.get_cons_succ, alookup, hk, if_false]
        exact ih vs (List.nodup_cons.mp hnd).2 hlen j hj

/-! ## Character and string helpers shared by the embedded modules -/

/-- Numeric value of an ASCII digit character. -/
def digitVal (c : Char) : Nat := c.toNat - 48

/-- Value of a list of ASCII digits read in base 10, `0` for the empty list
(mirroring the `int(base or 0)` / `except: n = 0` idioms of the source). -/
def digitsToNat (ds : List Char) : Nat :=
  ds.foldl (fun acc c => 10 * acc + digitVal c) 0

/-- Python `str.strip()`: drop whitespace from both ends. -/
def pyStrip (cs : List Char) : List Char :=
  (((cs.dropWhile Char.isWhitespace).reverse).dropWhile Char.isWhitespace).reverse

/-- Python `x in s` substring containment on character lists. -/
def containsSub (needle : List Char) : List Char → Bool
  | [] => needle.isEmpty
  | c :: rest => needle.isPrefixOf (c :: rest) || containsSub needle rest

/-- The `_norm` helper of `financial_subtabs/financial_indicators.py`:
lowercase, then keep only the characters matching `[a-z0-9]`
(`re.sub(r"[^a-z0-9]+", "", str(s).lower())`). -/
def pynorm (s : String) : List Char :=
  (s.data.map Char.toLower).filter fun c =>
    decide (('a' ≤ c ∧ c ≤ 'z') ∨ ('0' ≤ c ∧ c ≤ '9'))

theorem isDigit_toNat_bounds (c : Char) (h : c.isDigit = true) :
    48 ≤ c.toNat ∧ c.toNat ≤ 57 := by
  simp [Char.isDigit] at h
  exact ⟨h.1, h.2⟩

theorem mem_dropWhile_of_neg {p : α → Bool} {c : α} (hc : p c = false) :
    ∀ {l : List α}, c ∈ l → c ∈ l.dropWhile p := by
  intro l
  induction l with
  | nil => intro h; simp at h
  | cons x xs ih =>
    intro h
    by_cases hx : p x
    · rw [List.dropWhile_cons_of_pos hx]
      rcases List.mem_cons.mp h with rfl | h
      · rw [hc] at hx; exact absurd hx (by simp)
      · exact ih h
    · rw [List.dropWhile_cons_of_neg (by simpa using hx)]
      exact h

theorem mem_pyStrip {c : Char} (hc : c.isWhitespace = false) {l : List Char}
    (h : c ∈ l) : c ∈ pyStrip l := by
  unfold pyStrip
  rw [List.mem_reverse]
  exact mem_dropWhile_of_neg hc (by rw [List.mem_reverse]; exact mem_dropWhile_of_neg hc h)

/-! ## Numeric locale parsing (§4.3 of the spec)

The extraction code of `financial_subtabs/financial_indicators.py` converts
value cells with `pd.to_numeric(…, errors="coerce")`, which parses plain
float literals and turns everything else into `NaN`.  `to_numeric_cell`
models this elementwise conversion: a stripped decimal literal (optional
sign, digits, optional fraction, optional exponent) parses to its rational
value, and any other string — including the literal words `nan`/`inf`,
whose non-finite float results every downstream consumer treats as absent
— becomes `none`. -/

/-- Power of ten as a rational, written so that kernel reduction works. -/
def qPow10 : Nat → ℚ
  | 0 => 1
  | n + 1 => 10 * qPow10 n

/-- Multiply a rational by `10 ^ e` for a (possibly negative) exponent. -/
def qMulPow10 (x : ℚ) : Int → ℚ
  | Int.ofNat n => x * qPow10 n
  | Int.negSucc n => x / qPow10 (n + 1)

def floatAllowedChar (c : Char) : Bool :=
  c.isDigit || decide (c = '+') || decide (c = '-') || decide (c = '.') ||
    decide (c = 'e') || decide (c = 'E')

def spanDigits (cs : List Char) : List Char × List Char :=
  (cs.takeWhile Char.isDigit, cs.dropWhile Char.isDigit)

def parseExponent : List Char → Option Int × List Char
  | '+' :: r =>
    let p := spanDigits r
    (if p.1.isEmpty then none else some (Int.ofNat (digitsToNat p.1)), p.2)
  | '-' :: r =>
    let p := spanDigits r
    (if p.1.isEmpty then none else some (-(Int.ofNat (digitsToNat p.1))), p.2)
  | r =>
    let p := spanDigits r
    (if p.1.isEmpty then none else some (Int.ofNat (digitsToNat p.1)), p.2)

def parseFloatChars (cs : List Char) : Option ℚ :=
  if cs.all floatAllowedChar then
    let sp : ℚ × List Char :=
      match cs with
      | '+' :: r => (1, r)
      | '-' :: r => (-1, r)
      | r => (1, r)
    let ipr := spanDigits sp.2
    let fpr : List Char × List Char :=
      match ipr.2 with
      | '.' :: r => spanDigits r
      | _ => ([], ipr.2)
    if ipr.1.isEmpty && fpr.1.isEmpty then none
    else
      let exr : Option Int × List Char :=
        match fpr.2 with
        | 'e' :: r => parseExponent r
        | 'E' :: r => parseExponent r
        | _ => (some 0, fpr.2)
      match exr.1 with
      | none => none
      | some e =>
        if exr.2.isEmpty then
          some (qMulPow10 (sp.1 * ((digitsToNat ipr.1 : ℚ) +
            (digitsToNat fpr.1 : ℚ) / qPow10 fpr.1.length)) e)
        else none
  else none

def specialFloatWords : List (List Char) :=
  ["nan".data, "+nan".data, "-nan".data, "inf".data, "+inf".data, "-inf".data,
   "infinity".data, "+infinity".data, "-infinity".data]

def to_numeric_cell (s : String) : Option ℚ :=
  let cs := pyStrip s.data
  if specialFloatWords.any (fun w => decide (w = cs.map Char.toLower)) then none
  else parseFloatChars cs

/-! ## Year sort key used by `_extract_series_long`, `_avg_series` and
`compute_indicators`: `int(re.sub(r"[^0-9\-]", "", x) or 0)`.
`yearKey` returns `none` when the Python expression raises `ValueError`. -/

def parseIntChars : List Char → Option Int
  | [] => none
  | '-' :: ds =>
    if ds.isEmpty then none
    else if ds.all Char.isDigit then some (-(Int.ofNat (digitsToNat ds))) else none
  | ds =>
    if ds.all Char.isDigit then some (Int.ofNat (digitsToNat ds)) else none

def yearKey (s : String) : Option Int :=
  let t := s.data.filter (fun c => c.isDigit || decide (c = '-'))
  if t.isEmpty then some 0 else parseIntChars t

def yearKeyD (s : String) : Int := (yearKey s).getD 0

def ltYearKeyD (a b : String) : Bool := decide (yearKeyD a < yearKeyD b)

/-- Python string comparison `a < b` (lexicographic on code points). -/
def listLt : List Char → List Char → Bool
  | [], [] => false
  | [], _ :: _ => true
  | _ :: _, [] => false
  | a :: as, b :: bs => if a < b then true else if b < a then false else listLt as bs

def pyStrLt (a b : String) : Bool := listLt a.data b.data

theorem listLt_irrefl : ∀ l : List Char, listLt l l = false := by
  intro l
  induction l with
  | nil => rfl
  | cons c cs ih => simp [listLt, ih]

/-! ## Period sorter of `utils/transforms.py` (`sort_year_label`) -/

/-- Regex match of `(19|20)\d{2}` anchored at the head of the list. -/
def matchYearAt : List Char → Option Nat
  | a :: b :: c :: d :: _ =>
    if ((decide (a = '1') && decide (b = '9')) || (decide (a = '2') && decide (b = '0')))
        && c.isDigit && d.isDigit then
      some (1000 * digitVal a + 100 * digitVal b + 10 * digitVal c + digitVal d)
    else none
  | _ => none

/-- Leftmost match of `re.search(r"(19|20)\d{2}", s)`. -/
def findYear : List Char → Option Nat
  | [] => none
  | c :: rest =>
    match matchYearAt (c :: rest) with
    | some y => some y
    | none => findYear rest

/-- Python `s.endswith(("F", "f"))`: test the last character. -/
def endsF : List Char → Bool
  | [] => false
  | [c] => decide (c = 'F') || decide (c = 'f')
  | _ :: c :: rest => endsF (c :: rest)

/-- Sort key of `utils/transforms.py:sort_year_label`: strip the label,
extract the first `(19|20)\d{2}` year (sentinel 9999 when absent), flag
trailing `F`/`f` forecasts, tie-break on the stripped label. -/
def sort_year_label (label : String) : Nat × Nat × String :=
  ((findYear (pyStrip label.data)).getD 9999,
   if endsF (pyStrip label.data) then 1 else 0,
   String.mk (pyStrip label.data))

/-- Lexicographic comparison of the Python key triples. -/
def keyLt3 : Nat × Nat × String → Nat × Nat × String → Bool
  | (y1, f1, s1), (y2, f2, s2) =>
    if y1 < y2 then true
    else if y2 < y1 then false
    else if f1 < f2 then true
    else if f2 < f1 then false
    else listLt s1.data s2.data

def ltUtils (a b : String) : Bool := keyLt3 (sort_year_label a) (sort_year_label b)

/-- Python `sorted(labels, key=sort_year_label)`. -/
def utils_sorted_labels (labels : List String) : List String := pySorted ltUtils labels

/-! ## Period sorter of `ultis/transforms.py` (`sort_year_labels`) -/

/-- Sort key of `ultis/transforms.py:sort_year_labels._key`: concatenate
all digits of the label (`re.sub(r"[^0-9]", "", s)`, 0 on `int` failure),
flag trailing `F`/`f`; no tie-break component. -/
def ultis_key (s : String) : Nat × Nat :=
  (digitsToNat (s.data.filter Char.isDigit), if endsF s.data then 1 else 0)

def keyLt2 : Nat × Nat → Nat × Nat → Bool
  | (y1, f1), (y2, f2) =>
    if y1 < y2 then true else if y2 < y1 then false else decide (f1 < f2)

def ltUltis (a b : String) : Bool := keyLt2 (ultis_key a) (ultis_key b)

/-- Python `sorted(labels, key=_key)` of `ultis/transforms.py`. -/
def sort_year_labels (labels : List String) : List String := pySorted ltUltis labels

/-! ## Byte sniffer and robust CSV loader of `core/data_access.py`

Errors raised by the loader are modelled by `LoadError`; the spec's §7
taxonomy calls all of them `FormatError` (the Python code raises
`EmptyDataError` / `ValueError` with the corresponding messages).  The
stage that follows the byte checks is abstracted as `parseRest`, so a
theorem quantifying over `parseRest` shows the byte checks decide the
outcome before any parsing of the contents. -/

inductive LoadError where
  | emptyFile
  | disguisedSpreadsheet (msg : String)
  | cannotParse
deriving DecidableEq

/-- Message of the `ValueError` raised by `_read_csv_robust` on a `PK`
signature (two adjacent Python string literals, concatenated). -/
def xlsx_error_message : String :=
  "This file looks like an Excel (.xlsx) renamed to .csv. Please export a real CSV (Save As → CSV UTF-8)."

/-- The helper `_is_xlsx_bytes`: `b[:2] == b"PK"` (`P` = 80, `K` = 75). -/
def is_xlsx_bytes (b : List Nat) : Bool := decide (b.take 2 = [80, 75])

/-- Byte-level prefix of `_read_csv_robust` (`core/data_access.py`,
lines 80–88): empty-file check, then the spreadsheet-signature check,
then the encoding/parsing stages abstracted as `parseRest`. -/
def read_csv_robust (parseRest : List Nat → Except LoadError α) (raw : List Nat) :
    Except LoadError α :=
  if raw.isEmpty then .error .emptyFile
  else if is_xlsx_bytes raw then .error (.disguisedSpreadsheet xlsx_error_message)
  else parseRest raw

/-- The helper `_looks_like_xlsx` of `ui/layout.py`: read the first four
bytes and compare the first two with `PK`. -/
def looks_like_xlsx (raw : List Nat) : Bool := decide ((raw.take 4).take 2 = [80, 75])

def layout_xlsx_message : String :=
  "File có vẻ là Excel (.xlsx) nhưng đặt đuôi .csv. Vui lòng xuất lại **CSV thật** từ Excel."

/-- Byte-level prefix of `_read_csv_robust_any` (`ui/layout.py`). -/
def read_csv_robust_any (parseRest : List Nat → Except LoadError α) (raw : List Nat) :
    Except LoadError α :=
  if looks_like_xlsx raw then .error (.disguisedSpreadsheet layout_xlsx_message)
  else parseRest raw

/-! ## Header and delimiter locator of `core/data_access.py`
(`_guess_header_and_sep`, lines 28–59) -/

/-- Python `ln.split(sep)` for a single-character separator: splits on
every occurrence and keeps empty fields. -/
def splitChar (sep : Char) : List Char → List (List Char)
  | [] => [[]]
  | c :: r =>
    if c = sep then [] :: splitChar sep r
    else
      match splitChar sep r with
      | h :: t => (c :: h) :: t
      | [] => [[c]]

/-- Python `" ".join(cells)`. -/
def joinSpace (cells : List (List Char)) : List Char := List.intercalate [' '] cells

/-- The inner predicate `is_header_like`: at least three cells and at
least one alphabetic character in the joined, lowercased text. -/
def is_header_like (cells : List (List Char)) : Bool :=
  decide (3 ≤ cells.length) && ((joinSpace cells).map Char.toLower).any Char.isAlpha

def headerKeywords : List (List Char) := ["ticker".data, "mã".data, "ma ".data, "symbol".data]

def headerSeps : List Char := [',', ';', '\t']

/-- One line of the keyword-preference pass: the first separator whose
stripped split is header-like and whose joined text contains a
company/symbol keyword. -/
def kwHit (i : Nat) (ln : String) : Option (Nat × Char) :=
  headerSeps.findSome? fun sep =>
    let cells := (splitChar sep ln.data).map pyStrip
    if is_header_like cells &&
        headerKeywords.any (fun k => containsSub k ((joinSpace cells).map Char.toLower)) then
      some (i, sep)
    else none

def kwScanAux : Nat → List String → Option (Nat × Char)
  | _, [] => none
  | i, ln :: rest =>
    match kwHit i ln with
    | some p => some p
    | none => kwScanAux (i + 1) rest

/-- First pass of `_guess_header_and_sep` over `lines[:300]`. -/
def kwScan (lines : List String) : Option (Nat × Char) := kwScanAux 0 (lines.take 300)

/-- Second pass: the `(line, separator)` pair with the most raw split
columns, scanning `lines[:300]` with strict improvement (`n > best[2]`),
starting from `(-1, ",", 0)` (the `-1` modelled as `none`). -/
def bestScan (lines : List String) : Option Nat × Char × Nat :=
  ((lines.take 300).enum).foldl
    (fun best p =>
      headerSeps.foldl
        (fun b sep =>
          let n := (splitChar sep p.2.data).length
          if b.2.2 < n then (some p.1, sep, n) else b)
        best)
    (none, ',', 0)

/-- The `_guess_header_and_sep` function: keyword pass, then the
most-columns pair when it has at least 3 columns, then `(0, ",")`.
It never raises. -/
def guess_header_and_sep (lines : List String) : Nat × Char :=
  match kwScan lines with
  | some p => p
  | none =>
    let best := bestScan lines
    match best.1 with
    | some i => if 3 ≤ best.2.2 then (i, best.2.1) else (0, ',')
    | none => (0, ',')

/-! ## Data-frame model and the statement pivot of `utils/transforms.py` -/

/-- A decoded table: named columns and rows of string cells (every cell is
read through `astype(str)` before the operations modelled here). -/
structure DataFrame where
  columns : List String
  rows : List (List String)
deriving DecidableEq

def emptyDataFrame : DataFrame := ⟨[], []⟩

def pyLowerStr (s : String) : String := String.mk (s.data.map Char.toLower)

def pyUpperStr (s : String) : String := String.mk (s.data.map Char.toUpper)

/-- Index of a column name in the header (first occurrence). -/
def colIdx : List String → String → Nat
  | [], _ => 0
  | c :: rest, x => if c = x then 0 else colIdx rest x + 1

/-- Cell of row `r` in column `col`. -/
def cellAt (df : DataFrame) (col : String) (r : List String) : String :=
  (r.get? (colIdx df.columns col)).getD ""

/-- Insert-or-replace for the dict comprehensions of the source (later
bindings overwrite earlier ones, first-insertion order kept). -/
def upsert [DecidableEq κ] (k : κ) (v : β) : List (κ × β) → List (κ × β)
  | [] => [(k, v)]
  | (k2, v2) :: rest => if k2 = k then (k, v) :: rest else (k2, v2) :: upsert k v rest

/-- The dict `{c.lower(): c for c in df.columns}`. -/
def lowerMap (cols : List String) : List (String × String) :=
  cols.foldl (fun acc c => upsert (pyLowerStr c) c acc) []

/-- The `_pick` helper of `utils/transforms.py`: per candidate, exact
column-name match first, then case-insensitive match. -/
def pickT (df : DataFrame) (cands : List String) : Option String :=
  cands.findSome? fun c =>
    if c ∈ df.columns then some c
    else alookup (lowerMap df.columns) (pyLowerStr c)

/-- Python runtime errors surfaced by the embedded functions. -/
inductive PyErr where
  | nameError
  | valueError
  | attributeError
deriving DecidableEq

/-- The `pivot_long_to_table` function of `utils/transforms.py`
(lines 36–50).  After resolving the four role columns and keeping the rows
whose statement cell matches one of `stmt_names` (upper-cased `isin`), the
source pivots and then calls `sort_year_labels`, a name that is neither
defined nor imported in that module (it defines `sort_year_label`,
singular), so every run that reaches line 49 raises `NameError`; only the
two early `return pd.DataFrame()` exits produce a value. -/
def pivot_long_to_table (fin_df : DataFrame) (stmt_names : List String) :
    Except PyErr DataFrame :=
  match pickT fin_df ["statement", "section"],
      pickT fin_df ["lineitem", "line_item", "line_item_name", "item", "account"],
      pickT fin_df ["value", "amount"],
      pickT fin_df ["display_year", "year_label", "year"] with
  | some scol, some _lcol, some _vcol, some _ycol =>
    let sub := fin_df.rows.filter fun r =>
      decide (pyUpperStr (cellAt fin_df scol r) ∈ stmt_names.map pyUpperStr)
    if sub.isEmpty then .ok emptyDataFrame
    else .error .nameError
  | _, _, _, _ => .ok emptyDataFrame

/-! ## Time-series assembly, `financial_subtabs/financial_indicators.py`

A pandas `Series` indexed by period labels is a list of
`(label, Option ℚ)` pairs; a stored `none` is a `NaN` entry (the wide
extractor produces those for alias misses), and looking up a label that is
not in the index also yields `NaN`, hence the `Option.join` in `sget`. -/

abbrev Series := List (String × Option ℚ)

def sget (ser : Series) (y : String) : Option ℚ := (alookup ser y).join

/-- The dict `{_norm(c): c for c in df.columns}` (later duplicates
overwrite earlier values, insertion order preserved). -/
def normMap (cols : List String) : List (List Char × String) :=
  cols.foldl (fun acc c => upsert (pynorm c) c acc) []

/-- The `_pickcol` helper: `None` on an empty frame, then an exact pass on
normalized names, then a containment pass. -/
def pickcol (df : DataFrame) (cands : List String) : Option String :=
  if df.rows.isEmpty || df.columns.isEmpty then none
  else
    match cands.findSome? (fun c => alookup (normMap df.columns) (pynorm c)) with
    | some r => some r
    | none =>
      cands.findSome? fun c =>
        if (pynorm c).isEmpty then none
        else (normMap df.columns).findSome? fun p =>
          if containsSub (pynorm c) p.1 then some p.2 else none

/-- The `ALIAS` dictionary of `financial_subtabs/financial_indicators.py`. -/
def ALIAS (k : String) : List String :=
  if k = "revenue" then
    ["net revenue", "revenue", "net sales", "doanh thu", "doanhthu", "doanhthu thuần"]
  else if k = "cogs" then
    ["cogs", "cost of goods sold", "giá vốn", "gia von", "giavonhangban"]
  else if k = "gross_profit" then
    ["gross profit", "loi nhuan gop", "lợi nhuận gộp"]
  else if k = "ebit" then
    ["ebit", "operating profit", "operating income",
     "profit(loss) from business activities", "loi nhuan tu hoat dong kinh doanh",
     "lnkd", "lợi nhuận từ hoạt động kinh doanh"]
  else if k = "ebitda" then
    ["ebitda"]
  else if k = "interest_exp" then
    ["interest expense", "interest expenses", "chi phi lai vay", "chi phí lãi vay"]
  else if k = "net_profit" then
    ["net profit", "net income", "profit after tax", "lợi nhuận sau thuế", "lnst"]
  else if k = "current_assets" then
    ["current assets", "tài sản ngắn hạn", "tsnh"]
  else if k = "cash" then
    ["cash and cash equivalents", "tiền và tương đương tiền", "tien"]
  else if k = "receivables" then
    ["accounts receivable", "phai thu", "phải thu", "trade receivables"]
  else if k = "inventory" then
    ["inventory", "inventories", "hàng tồn kho", "hang ton kho", "htk"]
  else if k = "current_liab" then
    ["current liabilities", "nợ phải trả ngắn hạn", "no ngan han"]
  else if k = "total_assets" then
    ["total assets", "tong tai san", "tổng tài sản"]
  else if k = "total_liab" then
    ["liabilities", "total liabilities", "tong no phai tra", "tổng nợ phải trả"]
  else if k = "equity" then
    ["equity", "owner\x27s equity", "vốn chủ sở hữu", "von chu so huu"]
  else if k = "st_debt" then
    ["short-term loans", "short-term borrowings", "vay ngan han", "no ngan han vay"]
  else if k = "lt_debt" then
    ["long-term loans", "long-term borrowings", "vay dai han", "no dai han vay"]
  else if k = "operating_income" then
    ["operating income", "lnkd", "profit(loss) from business activities"]
  else if k = "depr" then
    ["depreciation", "khau hao", "depreciation of fixed assets"]
  else []

def statementCands : List String := ["Statement", "BCTC", "Loại", "Sheet"]
def itemCands : List String := ["LineItem", "Item", "Chỉ tiêu", "Chi tieu"]
def yearCands : List String := ["display_year", "Year", "Năm", "Nam", "year_label"]
def valueCands : List String := ["Value", "Giá trị", "Gia tri", "Amount"]

/-- Pandas `groupby(...).sum()` value semantics: `NaN` contributes zero
(`skipna=True`, `min_count=0`), so a group whose values are all absent
sums to `0`, never to `NaN`. -/
def sumSkipNa (l : List (Option ℚ)) : ℚ := l.foldl (fun acc v => acc + v.getD 0) 0

/-- Distinct year labels of the observation pairs, in the lexicographic
order used by `groupby(year_col, sort=True)`. -/
def groupKeys (pairs : List (String × Option ℚ)) : List String :=
  pySorted pyStrLt ((pairs.map Prod.fst).dedup)

/-- The grouped sums: one entry per distinct year label, summing the
values of that label with `NaN` skipped (so an all-absent group is `0`). -/
def groupedSeries (pairs : List (String × Option ℚ)) : Series :=
  (groupKeys pairs).map fun y =>
    (y, some (sumSkipNa (pairs.filterMap fun q => if q.1 = y then some q.2 else none)))

/-- The reindexing order of lines 174–177: sort the group keys by the
integer year key; the lexicographic `sort_index()` fallback applies when
some key raises (`try/except`). -/
def finalOrder (pairs : List (String × Option ℚ)) : List String :=
  if (groupKeys pairs).all (fun y => (yearKey y).isSome) then
    pySorted ltYearKeyD (groupKeys pairs)
  else pySorted pyStrLt (groupKeys pairs)

/-- Grouping-and-summing stage of `_extract_series_long`
(`df.groupby(year_col)[val_col].sum()` followed by the keyed reindex). -/
def groupSum (pairs : List (String × Option ℚ)) : Series :=
  (finalOrder pairs).map fun y => (y, (alookup (groupedSeries pairs) y).join)

theorem groupKeys_nodup (pairs : List (String × Option ℚ)) : (groupKeys pairs).Nodup :=
  (pySorted_perm pyStrLt _).symm.nodup (List.nodup_dedup _)

theorem finalOrder_perm (pairs : List (String × Option ℚ)) :
    List.Perm (finalOrder pairs) (groupKeys pairs) := by
  unfold finalOrder
  split
  · exact pySorted_perm ltYearKeyD _
  · exact pySorted_perm pyStrLt _

theorem groupSum_keys_nodup (pairs : List (String × Option ℚ)) :
    ((groupSum pairs).map Prod.fst).Nodup := by
  unfold groupSum
  rw [List.map_map]
  have hcomp : (Prod.fst ∘ fun y : String => (y, (alookup (groupedSeries pairs) y).join)) = id := rfl
  rw [hcomp, List.map_id]
  exact (finalOrder_perm pairs).symm.nodup (groupKeys_nodup pairs)

theorem groupSum_isSome (pairs : List (String × Option ℚ)) (p : String × Option ℚ)
    (hp : p ∈ groupSum pairs) : p.2.isSome = true := by
  unfold groupSum at hp
  rw [List.mem_map] at hp
  obtain ⟨y, hy, rfl⟩ := hp
  have hmem : y ∈ groupKeys pairs := (finalOrder_perm pairs).mem_iff.mp hy
  unfold groupedSeries
  rw [alookup_map_self _ _ y hmem]
  rfl

/-- Rows surviving the statement mask and the alias line-item mask of
`_extract_series_long` (normalized substring containment on both). -/
def matchingRows (fin_df : DataFrame) (statements : List String)
    (sc ic : String) (pats : List String) : List (List String) :=
  (if statements.isEmpty then fin_df.rows
   else fin_df.rows.filter fun r =>
     statements.any fun st => containsSub (pynorm st) (pynorm (cellAt fin_df sc r))).filter
    fun r => pats.any fun p => containsSub (pynorm p) (pynorm (cellAt fin_df ic r))

/-- The `_extract_series_long` function (lines 141–178): resolve the four
role columns, filter by normalized statement containment, filter line
items by alias containment, coerce values with `to_numeric_cell`, group by
year label summing values, then reorder by the numeric year key.  (The
empty-alias check is evaluated before the statement mask here; both are
pure, so the order is observationally the same as the source's.) -/
def extract_series_long (fin_df : DataFrame) (statements : List String)
    (aliasKey : String) : Series :=
  match pickcol fin_df statementCands, pickcol fin_df itemCands,
      pickcol fin_df yearCands, pickcol fin_df valueCands with
  | some sc, some ic, some yc, some vc =>
    if (ALIAS aliasKey).isEmpty then []
    else if (matchingRows fin_df statements sc ic (ALIAS aliasKey)).isEmpty then []
    else
      groupSum ((matchingRows fin_df statements sc ic (ALIAS aliasKey)).map fun r =>
        (cellAt fin_df yc r, to_numeric_cell (cellAt fin_df vc r)))
  | _, _, _, _ => []

/-! ## Indicator engine, `compute_indicators` (lines 256–392)

`compute_indicators` is modelled from the point where the per-concept
series map `S` has been fetched (lines 249–253 build `S` by calling
`fetch_metric_series` once per key); everything from the year-union
onwards is embedded.  The only statement of the body that can raise is the
keyed year sort of line 260 (`int` of the digit residue of a label), hence
the `Except PyErr` result. -/

def metricKeys : List String :=
  ["revenue", "cogs", "gross_profit", "ebit", "ebitda", "interest_exp", "net_profit",
   "current_assets", "cash", "receivables", "inventory", "current_liab",
   "total_assets", "total_liab", "equity", "st_debt", "lt_debt", "operating_income", "depr"]

abbrev SeriesMap := String → Series

/-- Union of the index sets of the non-empty fetched series, sorted
lexicographically (`sorted(set().union(*...))`, line 256). -/
def years_lex (S : SeriesMap) : List String :=
  pySorted pyStrLt
    ((((metricKeys.map S).filter (fun ser => !ser.isEmpty)).map
      (fun ser => ser.map Prod.fst)).flatten.dedup)

/-- True when the keyed sort of line 260 raises no `ValueError`. -/
def keys_ok (S : SeriesMap) : Bool := (years_lex S).all fun y => (yearKey y).isSome

/-- The final year order of line 260: stable sort of the lexicographic
order by the integer year key. -/
def years_sorted (S : SeriesMap) : List String := pySorted ltYearKeyD (years_lex S)

def INDICATOR_ORDER : List String :=
  ["Current Ratio", "Quick Ratio", "Working Capital to Total Assets",
   "Debt to Assets", "Debt to Equity", "Equity to Liabilities",
   "Long Term Debt to Assets", "Net Debt to Equity", "Receivables Turnover",
   "Inventory Turnover", "Asset Turnover", "ROA", "ROE", "EBIT to Assets",
   "Operating Income to Debt", "Net Profit Margin", "Gross Margin",
   "Interest Coverage", "EBITDA to Interest", "Total Debt to EBITDA"]

/-- The `val` getter of the loop body: `float(ser.get(y, np.nan))` on the
series reindexed over the year union. -/
def val (S : SeriesMap) (k : String) (y : String) : Option ℚ := sget (S k) y

/-- Float addition with `NaN` propagation. -/
def optAdd : Option ℚ → Option ℚ → Option ℚ
  | some a, some b => some (a + b)
  | _, _ => none

/-- Float subtraction with `NaN` propagation. -/
def optSub : Option ℚ → Option ℚ → Option ℚ
  | some a, some b => some (a - b)
  | _, _ => none

/-- One entry of `(s + s.shift(1)) / 2.0`. -/
def half_add : Option ℚ → Option ℚ → Option ℚ
  | some a, some b => some ((a + b) / 2)
  | _, _ => none

/-- The `_first_non_nan` helper: first finite value, else `NaN`. -/
def first_non_nan : List (Option ℚ) → Option ℚ
  | [] => none
  | some x :: _ => some x
  | none :: rest => first_non_nan rest

/-- The `safe_div` helper (lines 33–41): `NaN` whenever either operand is
non-finite or the denominator is zero; never raises. -/
def safe_div : Option ℚ → Option ℚ → Option ℚ
  | some a, some b => if b = 0 then none else some (a / b)
  | _, _ => none

/-- Lines 263–264: `total_debt` is the aligned sum of the short- and
long-term debt series, each replaced by the scalar `0` when its fetched
series is empty.  When both are empty the sum is the Python int `0`, and
line 265 then calls `.replace` on it, raising `AttributeError` — that
error path is modelled in `compute_indicators`, so the both-empty branch
below is never reached on a successful run; it returns `none` only to
keep this per-year view total. -/
def total_debt_at (S : SeriesMap) (y : String) : Option ℚ :=
  match (S "st_debt").isEmpty, (S "lt_debt").isEmpty with
  | true, true => none
  | true, false => val S "lt_debt" y
  | false, true => val S "st_debt" y
  | false, false => optAdd (val S "st_debt" y) (val S "lt_debt" y)

/-- Lines 267–272: explicit EBITDA series when fetched, else
`EBIT + depreciation` with `NaN` propagation. -/
def ebitda_at (S : SeriesMap) (y : String) : Option ℚ :=
  if (S "ebitda").isEmpty then optAdd (val S "ebit" y) (val S "depr" y)
  else val S "ebitda" y

/-- Reindexing a series over the year union (`.reindex(years)`). -/
def reindexS (ys : List String) (ser : Series) : Series :=
  ys.map fun y => (y, sget ser y)

/-- Index order used by `_avg_series`: the keyed sort of the series
index, with the lexicographic `sort_index()` fallback when some key
raises (`try/except` of lines 234–238). -/
def avgIdxOrder (s : Series) : List String :=
  if (s.map Prod.fst).all (fun y => (yearKey y).isSome) then
    pySorted ltYearKeyD (s.map Prod.fst)
  else pySorted pyStrLt (s.map Prod.fst)

/-- The `_avg_series` helper (lines 228–239): empty in, empty out;
otherwise resort the index and return `(s + s.shift(1)) / 2`, whose first
entry is always `NaN`. -/
def avg_series (s : Series) : Series :=
  if s.isEmpty then []
  else
    (avgIdxOrder s).zip
      (List.zipWith half_add ((avgIdxOrder s).map fun y => sget s y)
        (none :: (avgIdxOrder s).map fun y => sget s y))

def avg_at (S : SeriesMap) (k : String) (y : String) : Option ℚ :=
  sget (avg_series (reindexS (years_sorted S) (S k))) y

/-- Body of the per-year loop (lines 288–385), one indicator at a time. -/
def indicator_cell (S : SeriesMap) (ind : String) (y : String) : Option ℚ :=
  let revenue := val S "revenue" y
  let cogs := val S "cogs" y
  let gross_profit := val S "gross_profit" y
  let ebit := val S "ebit" y
  let interest_exp := val S "interest_exp" y
  let net_profit := val S "net_profit" y
  let ca := val S "current_assets" y
  let cash := val S "cash" y
  let ar := val S "receivables" y
  let inv := val S "inventory" y
  let cl := val S "current_liab" y
  let ta := val S "total_assets" y
  let tl := val S "total_liab" y
  let eq := val S "equity" y
  let ld := val S "lt_debt" y
  let td := total_debt_at S y
  let ebt_da := ebitda_at S y
  let aAssets := avg_at S "total_assets" y
  let aEquity := avg_at S "equity" y
  let aAr := avg_at S "receivables" y
  let aInv := avg_at S "inventory" y
  if ind = "Current Ratio" then safe_div ca cl
  else if ind = "Quick Ratio" then
    let qr1 := safe_div (optSub ca inv) cl
    let qr2 := safe_div (optAdd (first_non_nan [cash, some 0]) (first_non_nan [ar, some 0])) cl
    if qr1.isSome then qr1 else qr2
  else if ind = "Working Capital to Total Assets" then
    safe_div (optSub (first_non_nan [ca, none]) (first_non_nan [cl, none])) ta
  else if ind = "Debt to Assets" then safe_div (first_non_nan [td, tl]) ta
  else if ind = "Debt to Equity" then safe_div (first_non_nan [td, tl]) eq
  else if ind = "Equity to Liabilities" then safe_div eq tl
  else if ind = "Long Term Debt to Assets" then safe_div ld ta
  else if ind = "Net Debt to Equity" then
    let nd0 := first_non_nan [td, tl]
    let nd := match nd0, cash with
      | some n, some c => some (n - c)
      | _, _ => nd0
    safe_div nd eq
  else if ind = "Receivables Turnover" then safe_div revenue aAr
  else if ind = "Inventory Turnover" then
    let t1 := safe_div cogs aInv
    if t1.isSome then t1 else safe_div revenue aInv
  else if ind = "Asset Turnover" then safe_div revenue aAssets
  else if ind = "ROA" then safe_div net_profit aAssets
  else if ind = "ROE" then safe_div net_profit aEquity
  else if ind = "EBIT to Assets" then safe_div ebit aAssets
  else if ind = "Operating Income to Debt" then
    let op := if ebit.isSome then ebit else val S "operating_income" y
    safe_div op (first_non_nan [td, tl])
  else if ind = "Net Profit Margin" then safe_div net_profit revenue
  else if ind = "Gross Margin" then safe_div gross_profit revenue
  else if ind = "Interest Coverage" then safe_div ebit interest_exp
  else if ind = "EBITDA to Interest" then safe_div ebt_da interest_exp
  else if ind = "Total Debt to EBITDA" then safe_div (first_non_nan [td, tl]) ebt_da
  else none

abbrev IndicatorTable := List (String × Series)

/-- The transposed view assembled at line 387: rows in catalogue order,
one column per year of the sorted union.  When the year union is empty the
source returns a `"No data"` frame with the same all-absent cells. -/
def compute_table (S : SeriesMap) : IndicatorTable :=
  INDICATOR_ORDER.map fun ind =>
    (ind, (years_sorted S).map fun y => (y, indicator_cell S ind y))

/-- The `compute_indicators` function from the fetched series map on.
With an empty year union the function returns the `"No data"` frame early
(line 258).  Otherwise the keyed year sort of line 260 raises
`ValueError` when some label's digit residue is not a valid integer
literal; then line 265 calls `.replace` on `total_debt`, which is the
Python int `0` when both debt series are empty, raising
`AttributeError`; otherwise the indicator table is built. -/
def compute_indicators (S : SeriesMap) : Except PyErr IndicatorTable :=
  if (years_lex S).isEmpty then .ok (compute_table S)
  else if keys_ok S then
    if (S "st_debt").isEmpty && (S "lt_debt").isEmpty then .error .attributeError
    else .ok (compute_table S)
  else .error .valueError

/-- Cell lookup in the resulting table: absent for unknown rows, unknown
columns, and `NaN` cells alike. -/
def tget (t : IndicatorTable) (ind y : String) : Option ℚ :=
  (alookup ((alookup t ind).getD []) y).join

/-! ## Generic lemmas about the computed indicator table -/

theorem tget_compute_table (S : SeriesMap) (ind y : String)
    (hind : ind ∈ INDICATOR_ORDER) (hy : y ∈ years_sorted S) :
    tget (compute_table S) ind y = indicator_cell S ind y := by
  unfold tget compute_table
  rw [alookup_map_self (fun ind => (years_sorted S).map fun y => (y, indicator_cell S ind y))
    INDICATOR_ORDER ind hind]
  simp only [Option.getD_some]
  rw [alookup_map_self (fun y => indicator_cell S ind y) (years_sorted S) y hy]
  rfl

theorem tget_compute_table_notin (S : SeriesMap) (ind y : String)
    (hy : y ∉ years_sorted S) : tget (compute_table S) ind y = none := by
  unfold tget compute_table
  by_cases hind : ind ∈ INDICATOR_ORDER
  · rw [alookup_map_self (fun ind => (years_sorted S).map fun y => (y, indicator_cell S ind y))
      INDICATOR_ORDER ind hind]
    simp only [Option.getD_some]
    rw [alookup_map_self_none (fun y => indicator_cell S ind y) (years_sorted S) y hy]
    rfl
  · rw [alookup_map_self_none (fun ind => (years_sorted S).map fun y => (y, indicator_cell S ind y))
      INDICATOR_ORDER ind hind]
    rfl

theorem compute_indicators_ok {S : SeriesMap} {T : IndicatorTable}
    (h : compute_indicators S = .ok T) : T = compute_table S ∧ keys_ok S = true := by
  unfold compute_indicators at h
  by_cases h0 : (years_lex S).isEmpty
  · rw [if_pos h0] at h
    refine ⟨((Except.ok.injEq _ _).mp h).symm, ?_⟩
    unfold keys_ok
    rw [List.isEmpty_iff.mp h0]
    rfl
  · rw [if_neg h0] at h
    by_cases hk : keys_ok S
    · rw [if_pos hk] at h
      by_cases hd : ((S "st_debt").isEmpty && (S "lt_debt").isEmpty) = true
      · rw [if_pos hd] at h
        exact absurd h (by simp)
      · rw [if_neg hd] at h
        exact ⟨((Except.ok.injEq _ _).mp h).symm, hk⟩
    · rw [if_neg hk] at h
      exact absurd h (by simp)

/-! ## Claim C2: the utils period sorter -/

theorem matchYearAt_lt_9999 :
    ∀ (cs : List Char) (y : Nat), matchYearAt cs = some y → y < 9999 := by
  intro cs y h
  match cs with
  | [] => simp [matchYearAt] at h
  | [a] => simp [matchYearAt] at h
  | [a, b] => simp [matchYearAt] at h
  | [a, b, c] => simp [matchYearAt] at h
  | a :: b :: c :: d :: rest =>
    simp only [matchYearAt] at h
    by_cases hcond : (((decide (a = '1') && decide (b = '9')) ||
        (decide (a = '2') && decide (b = '0'))) && c.isDigit && d.isDigit) = true
    · rw [if_pos hcond] at h
      simp only [Bool.and_eq_true, Bool.or_eq_true, decide_eq_true_eq] at hcond
      obtain ⟨⟨hab, hc⟩, hd⟩ := hcond
      have hcB : digitVal c ≤ 9 := by
        have := isDigit_toNat_bounds c hc
        unfold digitVal
        omega
      have hdB : digitVal d ≤ 9 := by
        have := isDigit_toNat_bounds d hd
        unfold digitVal
        omega
      have hy : y = 1000 * digitVal a + 100 * digitVal b + 10 * digitVal c + digitVal d := by
        exact (Option.some.injEq _ _).mp h |>.symm
      rcases hab with ⟨ha, hb⟩ | ⟨ha, hb⟩ <;> subst ha <;> subst hb
      · have e1 : digitVal '1' = 1 := by decide
        have e2 : digitVal '9' = 9 := by decide
        rw [e1, e2] at hy
        omega
      · have e1 : digitVal '2' = 2 := by decide
        have e2 : digitVal '0' = 0 := by decide
        rw [e1, e2] at hy
        omega
    · rw [if_neg hcond] at h
      exact absurd h (by simp)

theorem findYear_lt_9999 :
    ∀ (cs : List Char) (y : Nat), findYear cs = some y → y < 9999 := by
  intro cs
  induction cs with
  | nil => intro y h; simp [findYear] at h
  | cons c rest ih =>
    intro y h
    unfold findYear at h
    cases hm : matchYearAt (c :: rest) with
    | some z =>
      rw [hm] at h
      cases h
      exact matchYearAt_lt_9999 _ _ hm
    | none =>
      rw [hm] at h
      exact ih y h

/-- Claim C2: the period sorter sorts any list of labels by the key
(year extracted as the first `(19|20)\d{2}` match of the stripped label,
with sentinel `9999` that is strictly above every extracted year when no
year is found; then forecast flag `0`/`1` from a trailing `F`/`f`; then
the stripped label as tie-break), and the canonical test input
`["2022F","2020","2021","2021F","2020F"]` sorts to
`["2020","2020F","2021","2021F","2022F"]`. -/
theorem c2_period_sorter :
    utils_sorted_labels ["2022F", "2020", "2021", "2021F", "2020F"] =
      ["2020", "2020F", "2021", "2021F", "2022F"] ∧
    (∀ l, utils_sorted_labels l = pySorted ltUtils l) ∧
    (∀ lbl : String, findYear (pyStrip lbl.data) = none →
      (sort_year_label lbl).1 = 9999) ∧
    (∀ (lbl : String) (y : Nat), findYear (pyStrip lbl.data) = some y →
      (sort_year_label lbl).1 = y ∧ y < 9999) := by
  refine ⟨by decide, fun l => rfl, ?_, ?_⟩
  · intro lbl h
    simp [sort_year_label, h]
  · intro lbl y h
    exact ⟨by simp [sort_year_label, h], findYear_lt_9999 _ y h⟩

/-- Witness for C2 at concrete labels. -/
theorem c2_period_sorter_witness :
    (sort_year_label "no year").1 = 9999 ∧ (sort_year_label " 2020F ").1 = 2020 := by
  refine ⟨c2_period_sorter.2.2.1 "no year" (by decide), ?_⟩
  exact (c2_period_sorter.2.2.2 " 2020F " 2020 (by decide)).1

/-! ## Claim C3: numeric cell parsing -/

/-- Counterexample to C3: the value pipeline is
`pd.to_numeric(…, errors="coerce")`, which has no locale heuristic, so
`"10.277,19"` and `"1,234"` coerce to absent instead of parsing to
`10277.19` and `1234.0` as the claim states. -/
theorem c3_locale_parsing_counterexample :
    to_numeric_cell "10.277,19" = none ∧
    to_numeric_cell "10.277,19" ≠ some ((1027719 : ℚ) / 100) ∧
    to_numeric_cell "1,234" = none ∧
    to_numeric_cell "1,234" ≠ some 1234 := by
  refine ⟨by decide, ?_, by decide, ?_⟩ <;> intro h <;> revert h <;> decide

/-- Claim C3 amended: numeric cell parsing is direct float parsing with
coercion to absent: any string containing a comma is absent (no locale
heuristic), `"1234.5"` parses to `1234.5`, and `""`, `"-"`, `"nan"`,
`"none"` (case-insensitively) and unparseable strings are absent; the
conversion is total, never an exception. -/
theorem c3_numeric_parsing_amended :
    (∀ s : String, ',' ∈ s.data → to_numeric_cell s = none) ∧
    to_numeric_cell "1234.5" = some ((2469 : ℚ) / 2) ∧
    to_numeric_cell "" = none ∧
    to_numeric_cell "-" = none ∧
    to_numeric_cell "nan" = none ∧
    to_numeric_cell "NaN" = none ∧
    to_numeric_cell "none" = none ∧
    to_numeric_cell "None" = none ∧
    to_numeric_cell "n/a" = none := by
  refine ⟨?_, by decide, by decide, by decide, by decide, by decide, by decide,
    by decide, by decide⟩
  intro s hs
  have hcs : ',' ∈ pyStrip s.data := mem_pyStrip (by decide) hs
  have hall : (pyStrip s.data).all floatAllowedChar = false := by
    rw [List.all_eq_false]
    exact ⟨',', hcs, by decide⟩
  simp [to_numeric_cell, parseFloatChars, hall]

/-- Witness for the comma clause of the amended C3. -/
theorem c3_numeric_parsing_amended_witness : to_numeric_cell "1,0" = none :=
  c3_numeric_parsing_amended.1 "1,0" (by decide)

/-! ## Claim C4: the PK signature check -/

/-- Claim C4: for every input whose first two bytes are `PK`, both loaders
fail with the disguised-spreadsheet error (the spec's `FormatError`,
raised as `ValueError` in the source) before the parsing stage — the
result does not depend on `parseRest` at all — and the messages mention
Excel. -/
theorem c4_pk_signature_rejected :
    (∀ (parseRest : List Nat → Except LoadError Nat) (raw : List Nat),
        raw.take 2 = [80, 75] →
        read_csv_robust parseRest raw = .error (.disguisedSpreadsheet xlsx_error_message)) ∧
    (∀ (parseRest : List Nat → Except LoadError Nat) (raw : List Nat),
        raw.take 2 = [80, 75] →
        read_csv_robust_any parseRest raw =
          .error (.disguisedSpreadsheet layout_xlsx_message)) ∧
    xlsx_error_message =
      "This file looks like an " ++ "Excel" ++
        " (.xlsx) renamed to .csv. Please export a real CSV (Save As → CSV UTF-8)." ∧
    layout_xlsx_message =
      "File có vẻ là " ++ "Excel" ++
        " (.xlsx) nhưng đặt đuôi .csv. Vui lòng xuất lại **CSV thật** từ " ++ "Excel" ++ "." := by
  refine ⟨?_, ?_, by decide, by decide⟩
  · intro parseRest raw h
    have hne : raw.isEmpty = false := by
      cases raw with
      | nil => simp at h
      | cons b bs => rfl
    have hxl : is_xlsx_bytes raw = true := by simp [is_xlsx_bytes, h]
    simp [read_csv_robust, hne, hxl]
  · intro parseRest raw h
    have hxl : looks_like_xlsx raw = true := by
      have ht : (raw.take 4).take 2 = raw.take 2 := by
        simp [List.take_take]
      simp [looks_like_xlsx, ht, h]
    simp [read_csv_robust_any, hxl]

/-- Witness for C4 at a concrete PK-prefixed byte string. -/
theorem c4_pk_signature_rejected_witness :
    read_csv_robust (fun _ => .ok 0) [80, 75, 3, 4] =
        .error (.disguisedSpreadsheet xlsx_error_message) ∧
    read_csv_robust_any (fun _ => .ok 0) [80, 75, 3, 4] =
        .error (.disguisedSpreadsheet layout_xlsx_message) :=
  ⟨c4_pk_signature_rejected.1 (fun _ => .ok 0) [80, 75, 3, 4] (by decide),
   c4_pk_signature_rejected.2.1 (fun _ => .ok 0) [80, 75, 3, 4] (by decide)⟩

/-! ## Claim C7: the header locator -/

/-- Counterexample to C7: on `["x"]` no line-and-delimiter candidate
yields even 2 columns (the best split has 1 column), yet
`_guess_header_and_sep` does not raise any error — it returns the
fallback `(0, ",")`. -/
theorem c7_header_locator_counterexample :
    (bestScan ["x"]).2.2 = 1 ∧ guess_header_and_sep ["x"] = (0, ',') := by decide

/-- Claim C7 amended: the locator scans the first 300 lines and returns
the first (line, delimiter) whose stripped split has ≥ 3 columns, a
letter, and a company/symbol keyword; otherwise the most-columns pair
provided that maximum is at least 3; otherwise — including every input
where no candidate reaches 2 columns — it falls back to `(0, ",")` and
never raises. -/
theorem c7_header_locator_amended :
    (∀ (lines : List String) (p : Nat × Char), kwScan lines = some p →
        guess_header_and_sep lines = p) ∧
    (∀ (lines : List String) (i : Nat) (sep : Char) (n : Nat),
        kwScan lines = none → bestScan lines = (some i, sep, n) → 3 ≤ n →
        guess_header_and_sep lines = (i, sep)) ∧
    (∀ (lines : List String) (i : Nat) (sep : Char) (n : Nat),
        kwScan lines = none → bestScan lines = (some i, sep, n) → n < 3 →
        guess_header_and_sep lines = (0, ',')) ∧
    guess_header_and_sep ["junk", "ticker,name,year"] = (1, ',') ∧
    guess_header_and_sep ["a;b;c;d"] = (0, ';') := by
  refine ⟨?_, ?_, ?_, by decide, by decide⟩
  · intro lines p h
    simp [guess_header_and_sep, h]
  · intro lines i sep n hk hb h3
    simp [guess_header_and_sep, hk, hb, h3]
  · intro lines i sep n hk hb h3
    simp [guess_header_and_sep, hk, hb, Nat.not_le.mpr h3]

/-- Witness for the amended C7 at concrete inputs covering the keyword
branch and the fallback branch. -/
theorem c7_header_locator_amended_witness :
    guess_header_and_sep ["corp", "symbol;name;year;value"] = (1, ';') ∧
    guess_header_and_sep ["a,b"] = (0, ',') :=
  ⟨c7_header_locator_amended.1 ["corp", "symbol;name;year;value"] (1, ';') (by decide),
   c7_header_locator_amended.2.2.1 ["a,b"] 0 ',' 2 (by decide) (by decide) (by decide)⟩

/-! ## Claim C9: the statement pivot raises NameError -/

/-- Claim C9: whenever the four role columns resolve and at least one row
matches a requested statement name, `pivot_long_to_table` of
`utils/transforms.py` raises `NameError` (its line 49 calls
`sort_year_labels`, which that module neither defines nor imports); only
the early empty-result returns avoid it.  Every statement sub-tab
(income, balance, cashflow, notes) calls this function. -/
theorem c9_pivot_raises_name_error :
    ∀ (df : DataFrame) (names : List String) (sc lc vc yc : String),
      pickT df ["statement", "section"] = some sc →
      pickT df ["lineitem", "line_item", "line_item_name", "item", "account"] = some lc →
      pickT df ["value", "amount"] = some vc →
      pickT df ["display_year", "year_label", "year"] = some yc →
      (df.rows.filter fun r =>
        decide (pyUpperStr (cellAt df sc r) ∈ names.map pyUpperStr)) ≠ [] →
      pivot_long_to_table df names = .error .nameError := by
  intro df names sc lc vc yc h1 h2 h3 h4 h5
  unfold pivot_long_to_table
  rw [h1, h2, h3, h4]
  simp only [List.isEmpty_iff]
  rw [if_neg h5]

/-- Witness for C9: a one-row income-statement frame reaches the
`NameError`. -/
theorem c9_pivot_raises_name_error_witness :
    pivot_long_to_table
        ⟨["statement", "lineitem", "value", "display_year"],
         [["INCOME_STATEMENT", "revenue", "100", "2020"]]⟩
        ["INCOME_STATEMENT"] = .error .nameError :=
  c9_pivot_raises_name_error
    ⟨["statement", "lineitem", "value", "display_year"],
     [["INCOME_STATEMENT", "revenue", "100", "2020"]]⟩
    ["INCOME_STATEMENT"] "statement" "lineitem" "value" "display_year"
    (by decide) (by decide) (by decide) (by decide) (by decide)

/-! ## Claim C10 counterexample: the two sorters differ -/

/-- Counterexample to C10: on `["2020", "abc"]` the utils sorter keeps
`"abc"` last (sentinel year 9999) while the ultis sorter puts it first
(digitless labels get key 0), so the two implementations are not
equivalent. -/
theorem c10_sorters_counterexample :
    utils_sorted_labels ["2020", "abc"] = ["2020", "abc"] ∧
    sort_year_labels ["2020", "abc"] = ["abc", "2020"] ∧
    utils_sorted_labels ["2020", "abc"] ≠ sort_year_labels ["2020", "abc"] := by
  refine ⟨by decide, by decide, ?_⟩
  intro h
  revert h
  decide

/-! ## Structure of the sorted year union -/

theorem ltYearKeyD_asymm : ∀ a b : String, ltYearKeyD a b = true → ltYearKeyD b a = false := by
  intro a b h
  simp only [ltYearKeyD, decide_eq_true_eq] at h
  simp only [ltYearKeyD, decide_eq_false_iff_not]
  omega

theorem ltYearKeyD_trans : ∀ a b c : String,
    ltYearKeyD a b = true → ltYearKeyD b c = true → ltYearKeyD a c = true := by
  intro a b c h1 h2
  simp only [ltYearKeyD, decide_eq_true_eq] at h1 h2 ⊢
  omega

theorem years_sorted_perm (S : SeriesMap) :
    List.Perm (years_sorted S) (years_lex S) := pySorted_perm ltYearKeyD _

theorem years_lex_nodup (S : SeriesMap) : (years_lex S).Nodup :=
  (pySorted_perm pyStrLt _).symm.nodup (List.nodup_dedup _)

theorem years_sorted_nodup (S : SeriesMap) : (years_sorted S).Nodup :=
  (years_sorted_perm S).symm.nodup (years_lex_nodup S)

theorem years_sorted_sortedB (S : SeriesMap) :
    SortedB ltYearKeyD (years_sorted S) :=
  pySorted_sortedB ltYearKeyD_asymm ltYearKeyD_trans _

theorem keys_ok_all_sorted {S : SeriesMap} (hk : keys_ok S = true) :
    (years_sorted S).all (fun y => (yearKey y).isSome) = true := by
  rw [List.all_eq_true]
  intro y hy
  have hy2 : y ∈ years_lex S := (years_sorted_perm S).mem_iff.mp hy
  exact List.all_eq_true.mp hk y hy2

theorem reindexS_fst (ys : List String) (ser : Series) :
    (reindexS ys ser).map Prod.fst = ys := by
  unfold reindexS
  rw [List.map_map]
  have hcomp : (Prod.fst ∘ fun y : String => (y, sget ser y)) = id := rfl
  rw [hcomp, List.map_id]

theorem sget_reindexS {ys : List String} {ser : Series} {y : String} (hy : y ∈ ys) :
    sget (reindexS ys ser) y = sget ser y := by
  unfold sget reindexS
  rw [alookup_map_self (fun y => sget ser y) ys y hy]
  rfl

/-- Entry `i` of the two-point average of a series reindexed over the
sorted year union: absent at the earliest position, else the half-sum of
the values at positions `i` and `i - 1`. -/
theorem avg_series_reindex_get (S : SeriesMap) (k : String) (hk : keys_ok S = true) :
    ∀ (i : Nat) (hi : i < (years_sorted S).length),
      sget (avg_series (reindexS (years_sorted S) (S k)))
          ((years_sorted S).get ⟨i, hi⟩) =
        match i with
        | 0 => none
        | j + 1 =>
          half_add (sget (S k) ((years_sorted S).get ⟨j + 1, hi⟩))
            (sget (S k) ((years_sorted S).get ⟨j, Nat.lt_of_succ_lt hi⟩)) := by
  intro i hi
  have hys_ne : years_sorted S ≠ [] := by
    intro hnil
    rw [hnil] at hi
    simp at hi
  have hs_ne : (reindexS (years_sorted S) (S k)).isEmpty = false := by
    unfold reindexS
    cases hys : years_sorted S with
    | nil => exact absurd hys hys_ne
    | cons a rest => simp [hys]
  have horder : avgIdxOrder (reindexS (years_sorted S) (S k)) = years_sorted S := by
    unfold avgIdxOrder
    rw [reindexS_fst, if_pos (keys_ok_all_sorted hk),
      pySorted_fixpoint (years_sorted_sortedB S)]
  unfold avg_series
  rw [if_neg (by simp [hs_ne]), horder]
  have hvals : (years_sorted S).map (fun y => sget (reindexS (years_sorted S) (S k)) y) =
      (years_sorted S).map (fun y => sget (S k) y) :=
    List.map_congr_left (fun y hy => sget_reindexS hy)
  rw [hvals]
  set ys := years_sorted S with hys_def
  set vals := ys.map (fun y => sget (S k) y) with hvals_def
  have hvlen : vals.length = ys.length := by simp [hvals_def]
  have hwlen : (List.zipWith half_add vals (none :: vals)).length = ys.length := by
    rw [List.length_zipWith]
    simp [hvlen]
  unfold sget
  rw [alookup_zip_get ys _ (years_sorted_nodup S) hwlen i hi]
  have hiw : i < (List.zipWith half_add vals (none :: vals)).length := by
    rw [hwlen]; exact hi
  rw [List.get?_eq_get hiw]
  have hzip : (List.zipWith half_add vals (none :: vals)).get ⟨i, hiw⟩ =
      half_add (vals.get ⟨i, by rw [hvlen]; exact hi⟩)
        ((none :: vals).get ⟨i, by simp [hvlen]; omega⟩) := by
    simp [List.get_eq_getElem, List.getElem_zipWith]
  rw [hzip]
  have hvget : ∀ (j : Nat) (hj : j < ys.length),
      vals.get ⟨j, by rw [hvlen]; exact hj⟩ = sget (S k) (ys.get ⟨j, hj⟩) := by
    intro j hj
    simp [hvals_def, List.get_eq_getElem]
  match i with
  | 0 =>
    rw [hvget 0 hi]
    cases sget (S k) (ys.get ⟨0, hi⟩) <;> rfl
  | j + 1 =>
    rw [hvget (j + 1) hi]
    have hcons : ((none :: vals).get ⟨j + 1, by simp [hvlen]; omega⟩ : Option ℚ) =
        vals.get ⟨j, by rw [hvlen]; exact Nat.lt_of_succ_lt hi⟩ := by
      simp [List.get_eq_getElem]
    rw [hcons, hvget j (Nat.lt_of_succ_lt hi)]
    rfl

/-! ## Claim C8: assembled time series -/

/-- Counterexample to C8: a period whose only matching value is absent is
not dropped — `groupby(...).sum()` zero-fills it (`skipna` with
`min_count=0`), so the unparseable cell `"abc"` yields the entry
`("2020", 0)` instead of no entry. -/
theorem c8_series_zero_fills_counterexample :
    to_numeric_cell "abc" = none ∧
    extract_series_long
        ⟨["Statement", "LineItem", "Year", "Value"],
         [["income", "revenue", "2020", "abc"]]⟩
        ["income", "balance", "cash"] "revenue" = [("2020", some 0)] := by
  constructor
  · decide
  · decide

/-- Claim C8 amended: the assembled series groups matching records by
period label and sums their values skipping absent ones; no period label
appears twice and no entry is absent-valued — but a period whose matching
values are all absent is reported as `0`, not dropped. -/
theorem c8_series_assembly_amended :
    (∀ (df : DataFrame) (stmts : List String) (key : String),
        ((extract_series_long df stmts key).map Prod.fst).Nodup) ∧
    (∀ (df : DataFrame) (stmts : List String) (key : String)
        (p : String × Option ℚ), p ∈ extract_series_long df stmts key →
        p.2.isSome = true) ∧
    extract_series_long
        ⟨["Statement", "LineItem", "Year", "Value"],
         [["income", "net revenue", "2020", "10"], ["income", "revenue", "2020", "5"],
          ["income", "revenue", "2019", "7"]]⟩
        ["income", "balance", "cash"] "revenue" =
      [("2019", some 7), ("2020", some 15)] := by
  refine ⟨?_, ?_, by decide⟩
  · intro df stmts key
    unfold extract_series_long
    split
    · split
      · simp
      · split
        · simp
        · exact groupSum_keys_nodup _
    · simp
  · intro df stmts key p hp
    unfold extract_series_long at hp
    revert hp
    split
    · split
      · intro hp; simp at hp
      · split
        · intro hp; simp at hp
        · exact groupSum_isSome _ p
    · intro hp; simp at hp

/-- Witness for the amended C8: the zero-filled entry of the one-record
frame is a present (non-absent) value. -/
theorem c8_series_assembly_amended_witness :
    (("2020", some (0 : ℚ)) : String × Option ℚ).2.isSome = true :=
  c8_series_assembly_amended.2.1
    ⟨["Statement", "LineItem", "Year", "Value"],
     [["income", "revenue", "2020", "abc"]]⟩
    ["income", "balance", "cash"] "revenue" ("2020", some 0) (by decide)

/-! ## Claim C1: absent denominators and missing inputs -/

/-- Series map for the C1 counterexample: current liabilities present but
cash, receivables and inventory entirely absent (with a short-term debt
series present so that line 265 does not raise). -/
def c1Z : SeriesMap := fun k =>
  if k = "current_assets" then [("2020", some 100)]
  else if k = "current_liab" then [("2020", some 100)]
  else if k = "st_debt" then [("2020", some 10)]
  else []

/-- Series map whose year union is non-empty while both debt series are
empty: the real `compute_indicators` crashes at line 265. -/
def c1E : SeriesMap := fun k =>
  if k = "revenue" then [("2020", some 1000)] else []

/-- Counterexample to C1 as universally stated: the Quick Ratio cell at
2020 has three missing inputs (cash, receivables, inventory), yet the
returned table holds the number zero there — the fallback substitutes `0`
for the missing cash and receivables (`_first_non_nan(cash, 0)`,
line 322) — and on `c1E` the indicator computation raises
`AttributeError` (line 265, `.replace` on the int `0 + 0`) instead of
returning a table, so missing inputs are neither always absent nor free
of raised exceptions. -/
theorem c1_missing_inputs_counterexample :
    val c1Z "cash" "2020" = none ∧
    val c1Z "receivables" "2020" = none ∧
    val c1Z "inventory" "2020" = none ∧
    compute_indicators c1Z = .ok (compute_table c1Z) ∧
    tget (compute_table c1Z) "Quick Ratio" "2020" = some 0 ∧
    compute_indicators c1E = .error .attributeError := by
  refine ⟨by decide, by decide, by decide, by decide, by decide, by decide⟩

/-- Claim C1 amended: `safe_div` turns an absent numerator, an absent
denominator or a zero denominator into an absent cell (never zero — the
result is `none`, not `some 0` — and never an exception: the function is
total); and when the `current_liab` concept matched no record (its
fetched series has no finite value at any label, covering both the empty
long-form result and the all-`NaN` wide-form fallback series), the
Current Ratio row of any returned table is absent at every period.  The
claim's universal form fails: the Quick Ratio fallback fabricates `0`
for missing cash/receivables, and the computation raises
`AttributeError` when both debt series are empty with a non-empty year
union. -/
theorem c1_absence_propagation :
    (∀ a, safe_div a none = none) ∧
    (∀ b, safe_div none b = none) ∧
    (∀ a, safe_div a (some 0) = none) ∧
    (∀ (S : SeriesMap) (T : IndicatorTable), compute_indicators S = .ok T →
      (∀ y, sget (S "current_liab") y = none) →
      ∀ y, tget T "Current Ratio" y = none) := by
  refine ⟨fun a => by cases a <;> rfl, fun b => by cases b <;> rfl,
    fun a => by cases a <;> simp [safe_div], ?_⟩
  intro S T hok hcl y
  obtain ⟨hT, _⟩ := compute_indicators_ok hok
  subst hT
  by_cases hy : y ∈ years_sorted S
  · rw [tget_compute_table S _ y (by decide) hy]
    have hcell : indicator_cell S "Current Ratio" y =
        safe_div (val S "current_assets" y) (val S "current_liab" y) := rfl
    rw [hcell]
    have hv : val S "current_liab" y = none := hcl y
    rw [hv]
    cases val S "current_assets" y <;> rfl
  · exact tget_compute_table_notin S _ y hy

/-- Series map for the C1 witness: revenue, current assets and a debt
series present, but no record at all for current liabilities. -/
def c1S : SeriesMap := fun k =>
  if k = "revenue" then [("2020", some 1000), ("2021", some 1200)]
  else if k = "current_assets" then [("2020", some 80), ("2021", some 90)]
  else if k = "st_debt" then [("2020", some 1), ("2021", some 1)]
  else []

/-- Witness for C1: on `c1S` the computation succeeds and the Current
Ratio cells of both periods are absent. -/
theorem c1_absence_propagation_witness :
    tget (compute_table c1S) "Current Ratio" "2020" = none ∧
    tget (compute_table c1S) "Current Ratio" "2021" = none := by
  have h := c1_absence_propagation.2.2.2 c1S (compute_table c1S)
    (by decide) (fun y => rfl)
  exact ⟨h "2020", h "2021"⟩

/-! ## Claim C5: the Quick Ratio -/

/-- Series map for the C5 counterexample: current assets, receivables and
current liabilities present, inventory and cash entirely absent (a
short-term debt series is present so that line 265 does not raise). -/
def c5S : SeriesMap := fun k =>
  if k = "current_assets" then [("2020", some 100)]
  else if k = "receivables" then [("2020", some 50)]
  else if k = "current_liab" then [("2020", some 100)]
  else if k = "st_debt" then [("2020", some 10)]
  else []

/-- Counterexample to C5: with inventory unavailable the code falls back
to `(cash + receivables) / current_liabilities` with the missing cash
substituted by `0` (`_first_non_nan(cash, 0)`), producing `50/100 = 1/2`
— a fabricated value where the claim requires an absent cell. -/
theorem c5_quick_ratio_counterexample :
    val c5S "inventory" "2020" = none ∧
    val c5S "cash" "2020" = none ∧
    compute_indicators c5S = .ok (compute_table c5S) ∧
    tget (compute_table c5S) "Quick Ratio" "2020" = some ((1 : ℚ) / 2) := by
  refine ⟨by decide, by decide, by decide, by decide⟩

/-- Claim C5 amended: for every period of the returned table, Quick Ratio
equals `(current_assets − inventory) / current_liabilities` when current
assets and inventory are both present (and the denominator is a nonzero
present value); when either is missing it equals
`(cash + receivables) / current_liabilities` with a missing cash or
receivables replaced by `0`; and the cell is absent exactly when the
denominator is absent or zero. -/
theorem c5_quick_ratio_amended :
    ∀ (S : SeriesMap) (T : IndicatorTable), compute_indicators S = .ok T →
      ∀ y, y ∈ years_sorted S →
        ((val S "current_liab" y = none ∨ val S "current_liab" y = some 0) →
          tget T "Quick Ratio" y = none) ∧
        (∀ c : ℚ, val S "current_liab" y = some c → c ≠ 0 →
          (∀ a b : ℚ, val S "current_assets" y = some a →
            val S "inventory" y = some b →
            tget T "Quick Ratio" y = some ((a - b) / c)) ∧
          ((val S "current_assets" y = none ∨ val S "inventory" y = none) →
            tget T "Quick Ratio" y =
              some (((val S "cash" y).getD 0 + (val S "receivables" y).getD 0) / c))) := by
  intro S T hok y hy
  obtain ⟨hT, _⟩ := compute_indicators_ok hok
  subst hT
  rw [tget_compute_table S _ y (by decide) hy]
  have hcell : indicator_cell S "Quick Ratio" y =
      (if (safe_div (optSub (val S "current_assets" y) (val S "inventory" y))
            (val S "current_liab" y)).isSome then
        safe_div (optSub (val S "current_assets" y) (val S "inventory" y))
          (val S "current_liab" y)
      else
        safe_div (optAdd (first_non_nan [val S "cash" y, some 0])
            (first_non_nan [val S "receivables" y, some 0]))
          (val S "current_liab" y)) := rfl
  rw [hcell]
  constructor
  · intro hcl
    rcases hcl with hcl | hcl <;> rw [hcl] <;>
      cases hca : val S "current_assets" y <;>
      cases hinv : val S "inventory" y <;>
      cases hcash : val S "cash" y <;>
      cases har : val S "receivables" y <;>
      simp [safe_div, optSub, optAdd, first_non_nan]
  · intro c hcl hc0
    constructor
    · intro a b hca hinv
      rw [hcl, hca, hinv]
      simp [safe_div, optSub, hc0]
    · intro hmiss
      have hnum : optSub (val S "current_assets" y) (val S "inventory" y) = none := by
        rcases hmiss with hmiss | hmiss <;> rw [hmiss]
        · rfl
        · cases val S "current_assets" y <;> rfl
      rw [hnum, hcl]
      cases hcash : val S "cash" y <;> cases har : val S "receivables" y <;>
        simp [safe_div, optAdd, first_non_nan, hc0]

/-- Witness for the amended C5 on `c5S`: the denominator is present and
nonzero and inventory is missing, so the fallback with zero-substituted
cash gives `1/2`. -/
theorem c5_quick_ratio_amended_witness :
    tget (compute_table c5S) "Quick Ratio" "2020" =
      some (((val c5S "cash" "2020").getD 0 + (val c5S "receivables" "2020").getD 0) / 100) := by
  have h := c5_quick_ratio_amended c5S (compute_table c5S) (by decide) "2020" (by decide)
  exact (h.2 100 (by decide) (by norm_num)).2 (Or.inr (by decide))

/-! ## Claim C6: ROA and ROE averaging -/

/-- Series map for the C6 counterexample and witness (a short-term debt
series is present so that line 265 does not raise). -/
def c6S : SeriesMap := fun k =>
  if k = "net_profit" then [("2020", some 10), ("2021", some 12)]
  else if k = "total_assets" then [("2020", some 100), ("2021", some 120)]
  else if k = "equity" then [("2020", some 50), ("2021", some 60)]
  else if k = "st_debt" then [("2020", some 1), ("2021", some 1)]
  else []

/-- Counterexample to C6: at the earliest period (2020) both net profit
and total assets are present, yet ROA is absent — the code's
`(s + s.shift(1)) / 2` denominator is `NaN` at the first position, it is
not the current-period value alone (which would give `10/100`). -/
theorem c6_earliest_period_counterexample :
    val c6S "net_profit" "2020" = some 10 ∧
    val c6S "total_assets" "2020" = some 100 ∧
    compute_indicators c6S = .ok (compute_table c6S) ∧
    tget (compute_table c6S) "ROA" "2020" = none ∧
    tget (compute_table c6S) "ROA" "2020" ≠ some ((10 : ℚ) / 100) := by
  refine ⟨by decide, by decide, by decide, by decide, ?_⟩
  intro h
  revert h
  decide

/-- Claim C6 amended: for every period with an immediately preceding
period in the sorted year union, ROA (ROE) divides net profit by the
two-point average of total assets (equity) over the current and preceding
period; at the earliest period the averaged denominator is absent, so ROA
and ROE are absent there — not computed from the current-period value
alone. -/
theorem c6_roa_roe_averaging_amended :
    ∀ (S : SeriesMap) (T : IndicatorTable), compute_indicators S = .ok T →
      (∀ (j : Nat) (hj : j + 1 < (years_sorted S).length),
        tget T "ROA" ((years_sorted S).get ⟨j + 1, hj⟩) =
          safe_div (val S "net_profit" ((years_sorted S).get ⟨j + 1, hj⟩))
            (half_add (sget (S "total_assets") ((years_sorted S).get ⟨j + 1, hj⟩))
              (sget (S "total_assets") ((years_sorted S).get ⟨j, Nat.lt_of_succ_lt hj⟩))) ∧
        tget T "ROE" ((years_sorted S).get ⟨j + 1, hj⟩) =
          safe_div (val S "net_profit" ((years_sorted S).get ⟨j + 1, hj⟩))
            (half_add (sget (S "equity") ((years_sorted S).get ⟨j + 1, hj⟩))
              (sget (S "equity") ((years_sorted S).get ⟨j, Nat.lt_of_succ_lt hj⟩)))) ∧
      (∀ h0 : 0 < (years_sorted S).length,
        tget T "ROA" ((years_sorted S).get ⟨0, h0⟩) = none ∧
        tget T "ROE" ((years_sorted S).get ⟨0, h0⟩) = none) := by
  intro S T hok
  obtain ⟨hT, hk⟩ := compute_indicators_ok hok
  subst hT
  have hcellA : ∀ y, indicator_cell S "ROA" y =
      safe_div (val S "net_profit" y) (avg_at S "total_assets" y) := fun y => rfl
  have hcellE : ∀ y, indicator_cell S "ROE" y =
      safe_div (val S "net_profit" y) (avg_at S "equity" y) := fun y => rfl
  constructor
  · intro j hj
    have hmem : (years_sorted S).get ⟨j + 1, hj⟩ ∈ years_sorted S := List.get_mem _ _ _
    constructor
    · rw [tget_compute_table S _ _ (by decide) hmem, hcellA]
      have havg := avg_series_reindex_get S "total_assets" hk (j + 1) hj
      unfold avg_at
      rw [havg]
    · rw [tget_compute_table S _ _ (by decide) hmem, hcellE]
      have havg := avg_series_reindex_get S "equity" hk (j + 1) hj
      unfold avg_at
      rw [havg]
  · intro h0
    have hmem : (years_sorted S).get ⟨0, h0⟩ ∈ years_sorted S := List.get_mem _ _ _
    constructor
    · rw [tget_compute_table S _ _ (by decide) hmem, hcellA]
      have havg := avg_series_reindex_get S "total_assets" hk 0 h0
      unfold avg_at
      rw [havg]
      cases val S "net_profit" ((years_sorted S).get ⟨0, h0⟩) <;> rfl
    · rw [tget_compute_table S _ _ (by decide) hmem, hcellE]
      have havg := avg_series_reindex_get S "equity" hk 0 h0
      unfold avg_at
      rw [havg]
      cases val S "net_profit" ((years_sorted S).get ⟨0, h0⟩) <;> rfl

/-- Witness for the amended C6 on `c6S`: 2021 has the preceding period
2020, so ROA at 2021 is `12 / ((100 + 120)/2) = 6/55`, and ROA at the
earliest period 2020 is absent. -/
theorem c6_roa_roe_averaging_amended_witness :
    tget (compute_table c6S) "ROA" "2021" = some ((6 : ℚ) / 55) ∧
    tget (compute_table c6S) "ROA" "2020" = none := by
  have h := c6_roa_roe_averaging_amended c6S (compute_table c6S) (by decide)
  have h1 := (h.1 0 (by decide)).1
  have h2 := (h.2 (by decide)).1
  constructor
  · have he : safe_div (val c6S "net_profit" ((years_sorted c6S).get ⟨1, by decide⟩))
        (half_add (sget (c6S "total_assets") ((years_sorted c6S).get ⟨1, by decide⟩))
          (sget (c6S "total_assets") ((years_sorted c6S).get ⟨0, by decide⟩))) =
        some ((6 : ℚ) / 55) := by decide
    exact h1.trans he
  · exact h2

/-! ## Claim C10 amended: agreement of the two sorters on canonical labels -/

/-- A canonical period label: a `19xx`/`20xx` year written with four
digits, optionally followed by a single uppercase `F` forecast suffix. -/
def canonLabel (s : String) : Bool :=
  match s.data with
  | a :: b :: c :: d :: rest =>
    (((decide (a = '1') && decide (b = '9')) || (decide (a = '2') && decide (b = '0')))
      && c.isDigit && d.isDigit) && (decide (rest = []) || decide (rest = ['F']))
  | _ => false

theorem char_toNat_inj {c d : Char} (h : c.toNat = d.toNat) : c = d := by
  apply Char.ext
  unfold Char.toNat at h
  exact UInt32.toNat.inj h

theorem digit_not_ws {c : Char} (h : c.isDigit = true) : c.isWhitespace = false := by
  by_contra hws
  rw [Bool.not_eq_false] at hws
  simp only [Char.isWhitespace, Bool.or_eq_true, decide_eq_true_eq] at hws
  rcases hws with ((hc | hc) | hc) | hc <;> subst hc <;> exact absurd h (by decide)

theorem digit_not_Ff {c : Char} (h : c.isDigit = true) :
    (decide (c = 'F') || decide (c = 'f')) = false := by
  by_contra hf
  rw [Bool.not_eq_false] at hf
  simp only [Bool.or_eq_true, decide_eq_true_eq] at hf
  rcases hf with hc | hc <;> subst hc <;> exact absurd h (by decide)

theorem digit_char_inj {c d : Char} (hc : c.isDigit = true) (hd : d.isDigit = true)
    (h : digitVal c = digitVal d) : c = d := by
  have hb1 := isDigit_toNat_bounds c hc
  have hb2 := isDigit_toNat_bounds d hd
  apply char_toNat_inj
  unfold digitVal at h
  omega

theorem pyStrip_eq_self {cs : List Char}
    (h1 : ∀ c, cs.head? = some c → c.isWhitespace = false)
    (h2 : ∀ c, cs.reverse.head? = some c → c.isWhitespace = false) :
    pyStrip cs = cs := by
  unfold pyStrip
  cases cs with
  | nil => rfl
  | cons a t =>
    have hda : List.dropWhile Char.isWhitespace (a :: t) = a :: t :=
      List.dropWhile_cons_of_neg (by simp [h1 a rfl])
    cases hr : (a :: t).reverse with
    | nil => exact absurd hr (by simp)
    | cons b u =>
      have hb : b.isWhitespace = false := by
        apply h2
        rw [hr]
        rfl
      have hdb : List.dropWhile Char.isWhitespace (b :: u) = b :: u :=
        List.dropWhile_cons_of_neg (by simp [hb])
      rw [hda, hr, hdb, ← hr, List.reverse_reverse]

theorem canon_parts {s : String} (h : canonLabel s = true) :
    ∃ (a b c d : Char) (rest : List Char),
      s.data = a :: b :: c :: d :: rest ∧
      ((a = '1' ∧ b = '9') ∨ (a = '2' ∧ b = '0')) ∧
      c.isDigit = true ∧ d.isDigit = true ∧ (rest = [] ∨ rest = ['F']) := by
  unfold canonLabel at h
  split at h
  · next a b c d rest heq =>
    simp only [Bool.and_eq_true, Bool.or_eq_true, decide_eq_true_eq] at h
    exact ⟨a, b, c, d, rest, heq, h.1.1.1, h.1.1.2, h.1.2, h.2⟩
  · exact absurd h (by simp)

theorem endsF_canon (a b c d : Char) (rest : List Char)
    (hdg : d.isDigit = true) (hrest : rest = [] ∨ rest = ['F']) :
    endsF (a :: b :: c :: d :: rest) = (if rest.isEmpty then false else true) := by
  rcases hrest with hrest | hrest <;> subst hrest
  · have hred : endsF [a, b, c, d] = (decide (d = 'F') || decide (d = 'f')) := rfl
    rw [hred]
    simpa using digit_not_Ff hdg
  · rfl

theorem sort_year_label_canon (a b c d : Char) (rest : List Char)
    (hab : (a = '1' ∧ b = '9') ∨ (a = '2' ∧ b = '0'))
    (hc : c.isDigit = true) (hdg : d.isDigit = true)
    (hrest : rest = [] ∨ rest = ['F']) :
    sort_year_label (String.mk (a :: b :: c :: d :: rest)) =
      (1000 * digitVal a + 100 * digitVal b + 10 * digitVal c + digitVal d,
       if rest.isEmpty then 0 else 1, String.mk (a :: b :: c :: d :: rest)) := by
  have hstrip : pyStrip (a :: b :: c :: d :: rest) = a :: b :: c :: d :: rest := by
    apply pyStrip_eq_self
    · intro x hx
      simp only [List.head?] at hx
      cases hx
      rcases hab with ⟨ha, _⟩ | ⟨ha, _⟩ <;> subst ha <;> decide
    · intro x hx
      rcases hrest with hrest | hrest <;> subst hrest
      · have hrd : ([a, b, c, d] : List Char).reverse.head? = some d := rfl
        rw [hrd] at hx
        have hxd : x = d := ((Option.some.injEq _ _).mp hx).symm
        subst hxd
        exact digit_not_ws hdg
      · have hrd : ([a, b, c, d, 'F'] : List Char).reverse.head? = some 'F' := rfl
        rw [hrd] at hx
        have hxd : x = 'F' := ((Option.some.injEq _ _).mp hx).symm
        subst hxd
        decide
  have hcond : (((decide (a = '1') && decide (b = '9')) ||
      (decide (a = '2') && decide (b = '0'))) && c.isDigit && d.isDigit) = true := by
    simp only [Bool.and_eq_true, Bool.or_eq_true, decide_eq_true_eq]
    exact ⟨⟨hab, hc⟩, hdg⟩
  have hm : matchYearAt (a :: b :: c :: d :: rest) =
      some (1000 * digitVal a + 100 * digitVal b + 10 * digitVal c + digitVal d) := by
    simp only [matchYearAt]
    rw [if_pos hcond]
  have hyear : findYear (a :: b :: c :: d :: rest) =
      some (1000 * digitVal a + 100 * digitVal b + 10 * digitVal c + digitVal d) := by
    simp only [findYear]
    rw [hm]
  unfold sort_year_label
  rw [show (String.mk (a :: b :: c :: d :: rest)).data = a :: b :: c :: d :: rest from rfl]
  rw [hstrip, hyear, endsF_canon a b c d rest hdg hrest]
  rcases hrest with hrest | hrest <;> subst hrest <;> simp

theorem ultis_key_canon (a b c d : Char) (rest : List Char)
    (hab : (a = '1' ∧ b = '9') ∨ (a = '2' ∧ b = '0'))
    (hc : c.isDigit = true) (hdg : d.isDigit = true)
    (hrest : rest = [] ∨ rest = ['F']) :
    ultis_key (String.mk (a :: b :: c :: d :: rest)) =
      (1000 * digitVal a + 100 * digitVal b + 10 * digitVal c + digitVal d,
       if rest.isEmpty then 0 else 1) := by
  have hfa : a.isDigit = true := by
    rcases hab with ⟨ha, _⟩ | ⟨ha, _⟩ <;> subst ha <;> decide
  have hfb : b.isDigit = true := by
    rcases hab with ⟨_, hb⟩ | ⟨_, hb⟩ <;> subst hb <;> decide
  have hfilter : (a :: b :: c :: d :: rest).filter Char.isDigit = [a, b, c, d] := by
    rcases hrest with hrest | hrest <;> subst hrest <;>
      simp [List.filter, hfa, hfb, hc, hdg]
  have hnum : digitsToNat [a, b, c, d] =
      1000 * digitVal a + 100 * digitVal b + 10 * digitVal c + digitVal d := by
    simp only [digitsToNat, List.foldl]
    ring
  unfold ultis_key
  rw [show (String.mk (a :: b :: c :: d :: rest)).data = a :: b :: c :: d :: rest from rfl]
  rw [hfilter, hnum, endsF_canon a b c d rest hdg hrest]
  rcases hrest with hrest | hrest <;> subst hrest <;> simp

theorem canon_year_inj (a1 b1 c1 d1 a2 b2 c2 d2 : Char)
    (hab1 : (a1 = '1' ∧ b1 = '9') ∨ (a1 = '2' ∧ b1 = '0'))
    (hab2 : (a2 = '1' ∧ b2 = '9') ∨ (a2 = '2' ∧ b2 = '0'))
    (hc1 : c1.isDigit = true) (hd1 : d1.isDigit = true)
    (hc2 : c2.isDigit = true) (hd2 : d2.isDigit = true)
    (hy : 1000 * digitVal a1 + 100 * digitVal b1 + 10 * digitVal c1 + digitVal d1 =
      1000 * digitVal a2 + 100 * digitVal b2 + 10 * digitVal c2 + digitVal d2) :
    a1 = a2 ∧ b1 = b2 ∧ c1 = c2 ∧ d1 = d2 := by
  have hbc1 := isDigit_toNat_bounds c1 hc1
  have hbd1 := isDigit_toNat_bounds d1 hd1
  have hbc2 := isDigit_toNat_bounds c2 hc2
  have hbd2 := isDigit_toNat_bounds d2 hd2
  have hvc1 : digitVal c1 ≤ 9 := by unfold digitVal; omega
  have hvd1 : digitVal d1 ≤ 9 := by unfold digitVal; omega
  have hvc2 : digitVal c2 ≤ 9 := by unfold digitVal; omega
  have hvd2 : digitVal d2 ≤ 9 := by unfold digitVal; omega
  rcases hab1 with ⟨ha1, hb1⟩ | ⟨ha1, hb1⟩ <;> rcases hab2 with ⟨ha2, hb2⟩ | ⟨ha2, hb2⟩ <;>
    subst ha1 <;> subst hb1 <;> subst ha2 <;> subst hb2 <;>
    [skip; skip; skip; skip] <;>
    first
    | (refine ⟨rfl, rfl, ?_, ?_⟩
       · apply digit_char_inj hc1 hc2
         revert hy
         have e1 : digitVal '1' = 1 := by decide
         have e2 : digitVal '9' = 9 := by decide
         have e3 : digitVal '2' = 2 := by decide
         have e4 : digitVal '0' = 0 := by decide
         simp only [e1, e2, e3, e4]
         omega
       · apply digit_char_inj hd1 hd2
         revert hy
         have e1 : digitVal '1' = 1 := by decide
         have e2 : digitVal '9' = 9 := by decide
         have e3 : digitVal '2' = 2 := by decide
         have e4 : digitVal '0' = 0 := by decide
         simp only [e1, e2, e3, e4]
         omega)
    | (exfalso
       revert hy
       have e1 : digitVal '1' = 1 := by decide
       have e2 : digitVal '9' = 9 := by decide
       have e3 : digitVal '2' = 2 := by decide
       have e4 : digitVal '0' = 0 := by decide
       simp only [e1, e2, e3, e4]
       omega)

theorem lt_agree {s t : String} (hs : canonLabel s = true) (ht : canonLabel t = true) :
    ltUtils s t = ltUltis s t := by
  obtain ⟨a1, b1, c1, d1, r1, hdata1, hab1, hc1, hd1, hr1⟩ := canon_parts hs
  obtain ⟨a2, b2, c2, d2, r2, hdata2, hab2, hc2, hd2, hr2⟩ := canon_parts ht
  cases s with
  | mk ls =>
    cases t with
    | mk lt2 =>
      simp only [String.data] at hdata1 hdata2
      subst hdata1
      subst hdata2
      unfold ltUtils ltUltis
      rw [sort_year_label_canon a1 b1 c1 d1 r1 hab1 hc1 hd1 hr1,
        sort_year_label_canon a2 b2 c2 d2 r2 hab2 hc2 hd2 hr2,
        ultis_key_canon a1 b1 c1 d1 r1 hab1 hc1 hd1 hr1,
        ultis_key_canon a2 b2 c2 d2 r2 hab2 hc2 hd2 hr2]
      set y1 := 1000 * digitVal a1 + 100 * digitVal b1 + 10 * digitVal c1 + digitVal d1 with hy1
      set y2 := 1000 * digitVal a2 + 100 * digitVal b2 + 10 * digitVal c2 + digitVal d2 with hy2
      set f1 : Nat := if r1.isEmpty then 0 else 1 with hf1
      set f2 : Nat := if r2.isEmpty then 0 else 1 with hf2
      unfold keyLt3 keyLt2
      by_cases h1 : y1 < y2
      · simp [h1]
      · by_cases h2 : y2 < y1
        · simp [h1, h2]
        · have hyeq : y1 = y2 := by omega
          by_cases h3 : f1 < f2
          · simp [h1, h2, h3]
          · by_cases h4 : f2 < f1
            · simp [h1, h2, h3, h4]
            · have hfeq : f1 = f2 := by omega
              simp only [h1, h2, h3, h4, if_false]
              have hreq : r1 = r2 := by
                rcases hr1 with hr1 | hr1 <;> rcases hr2 with hr2 | hr2 <;>
                  subst hr1 <;> subst hr2 <;> first | rfl | (exfalso; simp [hf1, hf2] at hfeq)
              obtain ⟨ha, hb, hcc, hdd⟩ :=
                canon_year_inj a1 b1 c1 d1 a2 b2 c2 d2 hab1 hab2 hc1 hd1 hc2 hd2
                  (by rw [← hy1, ← hy2, hyeq])
              subst ha
              subst hb
              subst hcc
              subst hdd
              subst hreq
              rw [listLt_irrefl]
              rfl

/-- Claim C10 amended: the two period-sort implementations agree on every
list of canonical period labels (a four-digit `19xx`/`20xx` year with an
optional uppercase `F` suffix); outside this class they differ, e.g. on
labels with no digits or with digits outside the year. -/
theorem c10_sorters_equiv_amended :
    ∀ l : List String, (∀ s ∈ l, canonLabel s = true) →
      utils_sorted_labels l = sort_year_labels l := by
  intro l hl
  unfold utils_sorted_labels sort_year_labels
  exact pySorted_congr (fun a ha b hb => lt_agree (hl a ha) (hl b hb))

/-- Witness for the amended C10 on a concrete canonical list. -/
theorem c10_sorters_equiv_amended_witness :
    utils_sorted_labels ["2022F", "2020", "2021", "2021F", "1999"] =
      sort_year_labels ["2022F", "2020", "2021", "2021F", "1999"] :=
  c10_sorters_equiv_amended ["2022F", "2020", "2021", "2021F", "1999"] (by decide)

end Spec2Proof
